import Mathlib

/-!
Shallow embedding of the `RequestTracing` middleware of
`actix-web-opentelemetry` (`src/middleware/trace.rs`), together with proofs
of the specified properties of its status mapping, attribute collection,
route naming and span lifecycle.
-/

namespace ActixOtel

/-- The OpenTelemetry span status codes
(`opentelemetry::api::trace::StatusCode`) that the middleware can emit; the
upstream enum has further members (Cancelled, AlreadyExists,
FailedPrecondition, Aborted, OutOfRange, DataLoss) that no code path of the
middleware produces. -/
inductive SpanStatusCode where
  /-- `StatusCode::OK` -/
  | ok
  /-- `StatusCode::Unknown` -/
  | unknown
  /-- `StatusCode::InvalidArgument` -/
  | invalidArgument
  /-- `StatusCode::DeadlineExceeded` -/
  | deadlineExceeded
  /-- `StatusCode::NotFound` -/
  | notFound
  /-- `StatusCode::PermissionDenied` -/
  | permissionDenied
  /-- `StatusCode::ResourceExhausted` -/
  | resourceExhausted
  /-- `StatusCode::Unimplemented` -/
  | unimplemented
  /-- `StatusCode::Internal` -/
  | internal
  /-- `StatusCode::Unavailable` -/
  | unavailable
  /-- `StatusCode::Unauthenticated` -/
  | unauthenticated
  deriving DecidableEq, Repr

/-- The status mapper of `RequestTracingMiddleware::call` (trace.rs lines
223-235): a `match` on `ok_res.status().as_u16()` whose arms are tried in
order. -/
def mapStatus (s : Nat) : SpanStatusCode :=
  if 100 ≤ s ∧ s ≤ 399 then SpanStatusCode.ok
  else if s = 401 then SpanStatusCode.unauthenticated
  else if s = 403 then SpanStatusCode.permissionDenied
  else if s = 404 then SpanStatusCode.notFound
  else if s = 429 then SpanStatusCode.resourceExhausted
  else if 400 ≤ s ∧ s ≤ 499 then SpanStatusCode.invalidArgument
  else if s = 501 then SpanStatusCode.unimplemented
  else if s = 503 then SpanStatusCode.unavailable
  else if s = 504 then SpanStatusCode.deadlineExceeded
  else if 500 ≤ s ∧ s ≤ 599 then SpanStatusCode.internal
  else SpanStatusCode.unknown

/-- HTTP protocol versions (`actix_web::http::Version`, a wrapper around the
five versions of the `http` crate). -/
inductive Version where
  | http09
  | http10
  | http11
  | http2
  | http3
  deriving DecidableEq, Repr

/-- The `Debug` rendering of `http::Version`, as produced by
`format!("{:?}", req.version())`. -/
def Version.debugRender : Version → String
  | Version.http09 => "HTTP/0.9"
  | Version.http10 => "HTTP/1.0"
  | Version.http11 => "HTTP/1.1"
  | Version.http2 => "HTTP/2.0"
  | Version.http3 => "HTTP/3.0"

/-- Leftmost, non-overlapping replacement of a non-empty pattern in a
character list, with fuel (`str::replace` semantics for non-empty patterns).
-/
def replaceAllAux (pat rep : List Char) : Nat → List Char → List Char
  | _, [] => []
  | 0, s => s
  | fuel + 1, c :: cs =>
    if pat ≠ [] ∧ pat.isPrefixOf (c :: cs) then
      rep ++ replaceAllAux pat rep fuel ((c :: cs).drop pat.length)
    else
      c :: replaceAllAux pat rep fuel cs

/-- `str::replace` for a non-empty pattern. -/
def replaceAll (s pat rep : String) : String :=
  String.mk (replaceAllAux pat.data rep.data s.data.length s.data)

/-- The `http.flavor` value of trace.rs line 173:
`format!("{:?}", req.version()).replace("HTTP/", "")`. -/
def flavorOf (v : Version) : String :=
  replaceAll v.debugRender ("HTTP/") ("")

/-- `str::split(c)` on a character list: the (always non-empty) list of
segments between occurrences of `c`. -/
def splitOnChar (c : Char) : List Char → List (List Char)
  | [] => [[]]
  | x :: xs =>
    match splitOnChar c xs with
    | [] => if x = c then [[], []] else [[x]]
    | y :: ys => if x = c then [] :: y :: ys else (x :: y) :: ys

/-- `str::split_terminator(c)`: like `split`, but a trailing empty segment is
skipped. -/
def splitTerminatorChar (c : Char) (s : List Char) : List (List Char) :=
  let parts := splitOnChar c s
  match parts.getLast? with
  | some [] => parts.dropLast
  | _ => parts

/-- `u64::from_str` on a character list: an optional `+` sign followed by at
least one ascii digit, value below `2 ^ 64`. -/
def parseU64 (l : List Char) : Option Nat :=
  let t := match l with
    | '+' :: rest => rest
    | _ => l
  if t ≠ [] ∧ t.all Char.isDigit then
    let n := t.foldl (fun a c => a * 10 + (c.toNat - 48)) 0
    if n < 2 ^ 64 then some n else none
  else none

/-- The port extraction of trace.rs lines 182-187:
`conn_info.host().split_terminator(':').nth(1).and_then(|port| port.parse().ok())`.
-/
def hostPortOf (host : String) : Option Nat :=
  ((splitTerminatorChar ':' host.data).get? 1).bind parseU64

/-- Span attribute values used by the middleware (`string` and `u64`). -/
inductive AttrValue where
  | str (s : String)
  | int (n : Nat)
  deriving DecidableEq, Repr

/-- A span attribute: semantic-convention key paired with a value. -/
abbrev Attr := String × AttrValue

/-- The request data consumed by `RequestTracingMiddleware::call`. -/
structure Request where
  /-- `req.method().as_str()` -/
  method : String
  /-- `req.version()` -/
  version : Version
  /-- `conn_info.host()` -/
  connHost : String
  /-- `conn_info.scheme()` -/
  scheme : String
  /-- `req.match_pattern()` -/
  matchPattern : Option String
  /-- `req.app_config().host()` -/
  serverHost : String
  /-- `req.uri().path_and_query()`, rendered -/
  pathAndQuery : Option String
  /-- the `User-Agent` header when present and valid text -/
  userAgent : Option String
  /-- `conn_info.realip_remote_addr()` -/
  realipRemoteAddr : Option String
  /-- `req.peer_addr()`, rendered via `to_string` -/
  peerAddr : Option String

/-- The route name of trace.rs lines 164-167: the matched pattern (or
`"default"`), passed through the optional route formatter. -/
def httpRouteOf (fmt : Option (String → String)) (req : Request) : String :=
  let route := req.matchPattern.getD ("default")
  match fmt with
  | some f => f route
  | none => route

/-- The five unconditional attributes of trace.rs lines 171-177. -/
def baseAttrs (fmt : Option (String → String)) (req : Request) : List Attr :=
  [(("http.method"), AttrValue.str req.method),
   (("http.flavor"), AttrValue.str (flavorOf req.version)),
   (("http.host"), AttrValue.str req.connHost),
   (("http.route"), AttrValue.str (httpRouteOf fmt req)),
   (("http.scheme"), AttrValue.str req.scheme)]

/-- trace.rs lines 178-181: `http.server_name` is pushed only when the app
config host differs from the connection host. -/
def serverNameAttrs (req : Request) : List Attr :=
  if req.serverHost ≠ req.connHost then
    [(("http.server_name"), AttrValue.str req.serverHost)]
  else []

/-- trace.rs lines 182-189: `net.host.port` is pushed when the second
`:`-separated segment of the connection host parses as a `u64`. -/
def portAttrs (req : Request) : List Attr :=
  match hostPortOf req.connHost with
  | some p => [(("net.host.port"), AttrValue.int p)]
  | none => []

/-- trace.rs lines 190-192: `http.target` from `path_and_query` when
resolvable. -/
def targetAttrs (req : Request) : List Attr :=
  match req.pathAndQuery with
  | some p => [(("http.target"), AttrValue.str p)]
  | none => []

/-- trace.rs lines 193-199: `http.user_agent` when the header is present and
valid text. -/
def userAgentAttrs (req : Request) : List Attr :=
  match req.userAgent with
  | some u => [(("http.user_agent"), AttrValue.str u)]
  | none => []

/-- trace.rs lines 200-203: `http.client_ip` from the realip remote address
when available. -/
def clientIpAttrs (req : Request) : List Attr :=
  match req.realipRemoteAddr with
  | some r => [(("http.client_ip"), AttrValue.str r)]
  | none => []

/-- trace.rs lines 204-209: `net.peer.ip` when the peer socket address is
available and `Some(peer_addr.as_str()) != remote_addr`. -/
def peerIpAttrs (req : Request) : List Attr :=
  match req.peerAddr with
  | some p =>
    if some p ≠ req.realipRemoteAddr then [(("net.peer.ip"), AttrValue.str p)]
    else []
  | none => []

/-- The full attribute set of trace.rs lines 171-209, in push order. -/
def collectAttributes (fmt : Option (String → String)) (req : Request) :
    List Attr :=
  baseAttrs fmt req ++ serverNameAttrs req ++ portAttrs req ++
    targetAttrs req ++ userAgentAttrs req ++ clientIpAttrs req ++
    peerIpAttrs req

/-- A successful response of the inner handler: its HTTP status
(`ok_res.status().as_u16()`) plus an opaque payload standing for the rest of
the `ServiceResponse`. -/
structure Response where
  status : Nat
  payload : String
  deriving DecidableEq, Repr

/-- A failure of the inner handler: `format!("{:?}", err)` plus an opaque
payload standing for the rest of the `actix_web::Error` value. -/
structure HandlerError where
  debugRepr : String
  payload : String
  deriving DecidableEq, Repr

/-- The settlement of the inner handler's future: success or failure. -/
inductive HandlerOutcome where
  | ok (resp : Response)
  | err (e : HandlerError)
  deriving DecidableEq, Repr

/-- Observable span-lifecycle events of `RequestTracingMiddleware::call`, in
the order the middleware performs them. -/
inductive Event where
  /-- `tracer.build(builder)` with the span name and creation attributes -/
  | spanCreate (name : String) (attrs : List Attr)
  /-- `self.service.call(req)` -/
  | handlerInvoke
  /-- the inner handler's future settles -/
  | handlerSettle
  /-- `span.set_attribute(..)` -/
  | setAttribute (key : String) (value : AttrValue)
  /-- `span.set_status(code, msg)` -/
  | setStatus (code : SpanStatusCode) (msg : String)
  /-- `span.end()` -/
  | spanEnd
  deriving DecidableEq, Repr

/-- `RequestTracingMiddleware::call` (trace.rs lines 158-249), given the
outcome the inner handler settles with: the trace of span-lifecycle events
and the value returned to the caller.  The span is built from the formatted
route and the collected attributes before the inner service is called; the
`map` continuation runs after settlement and, on success, records the
status-code attribute, sets the mapped status with an empty message and ends
the span, while on failure it sets status `Internal` with the error's debug
rendering, ends the span and re-raises the error. -/
def call (fmt : Option (String → String)) (req : Request)
    (out : HandlerOutcome) : List Event × HandlerOutcome :=
  let route := httpRouteOf fmt req
  let attrs := collectAttributes fmt req
  let pre := [Event.spanCreate route attrs, Event.handlerInvoke]
  match out with
  | HandlerOutcome.ok resp =>
    (pre ++ [Event.handlerSettle,
             Event.setAttribute ("http.status_code") (AttrValue.int resp.status),
             Event.setStatus (mapStatus resp.status) (""),
             Event.spanEnd],
     HandlerOutcome.ok resp)
  | HandlerOutcome.err e =>
    (pre ++ [Event.handlerSettle,
             Event.setStatus SpanStatusCode.internal e.debugRepr,
             Event.spanEnd],
     HandlerOutcome.err e)

/-- Is the event a span creation? -/
def Event.isSpanCreate : Event → Bool
  | Event.spanCreate _ _ => true
  | _ => false

/-- Is the event the span end? -/
def Event.isSpanEnd : Event → Bool
  | Event.spanEnd => true
  | _ => false

/-- Is the event the inner-handler invocation? -/
def Event.isHandlerInvoke : Event → Bool
  | Event.handlerInvoke => true
  | _ => false

/-- Is the event the inner-handler settlement? -/
def Event.isHandlerSettle : Event → Bool
  | Event.handlerSettle => true
  | _ => false

/-- The name the span was created with, if a creation event occurs. -/
def spanNameOf? (tr : List Event) : Option String :=
  tr.findSome? fun e => match e with
    | Event.spanCreate n _ => some n
    | _ => none

/-- All `set_status` calls of a trace, as (code, message) pairs in order. -/
def statusEvents (tr : List Event) : List (SpanStatusCode × String) :=
  tr.filterMap fun e => match e with
    | Event.setStatus c m => some (c, m)
    | _ => none

/-- Claim C1: the status mapper is a total deterministic function of the
numeric HTTP status code: every code in [100,399] yields Ok; 401
Unauthenticated; 403 PermissionDenied; 404 NotFound; 429 ResourceExhausted;
every other code in [400,499] InvalidArgument; 501 Unimplemented; 503
Unavailable; 504 DeadlineExceeded; every other code in [500,599] Internal;
and every code outside [100,599] yields Unknown. -/
theorem mapStatus_total_spec (s : Nat) (hs : s < 65536) :
    (100 ≤ s ∧ s ≤ 399 → mapStatus s = SpanStatusCode.ok) ∧
    (s = 401 → mapStatus s = SpanStatusCode.unauthenticated) ∧
    (s = 403 → mapStatus s = SpanStatusCode.permissionDenied) ∧
    (s = 404 → mapStatus s = SpanStatusCode.notFound) ∧
    (s = 429 → mapStatus s = SpanStatusCode.resourceExhausted) ∧
    (400 ≤ s ∧ s ≤ 499 ∧ s ≠ 401 ∧ s ≠ 403 ∧ s ≠ 404 ∧ s ≠ 429 →
      mapStatus s = SpanStatusCode.invalidArgument) ∧
    (s = 501 → mapStatus s = SpanStatusCode.unimplemented) ∧
    (s = 503 → mapStatus s = SpanStatusCode.unavailable) ∧
    (s = 504 → mapStatus s = SpanStatusCode.deadlineExceeded) ∧
    (500 ≤ s ∧ s ≤ 599 ∧ s ≠ 501 ∧ s ≠ 503 ∧ s ≠ 504 →
      mapStatus s = SpanStatusCode.internal) ∧
    (s < 100 ∨ 599 < s → mapStatus s = SpanStatusCode.unknown) := by
  refine ⟨?_, ?_, ?_, ?_, ?_, ?_, ?_, ?_, ?_, ?_, ?_⟩
  · intro h; simp only [mapStatus]; rw [if_pos h]
  · rintro rfl; decide
  · rintro rfl; decide
  · rintro rfl; decide
  · rintro rfl; decide
  · intro h
    simp only [mapStatus]
    repeat rw [if_neg (by omega)]
    rw [if_pos (by omega)]
  · rintro rfl; decide
  · rintro rfl; decide
  · rintro rfl; decide
  · intro h
    simp only [mapStatus]
    repeat rw [if_neg (by omega)]
    rw [if_pos (by omega)]
  · intro h
    simp only [mapStatus]
    repeat rw [if_neg (by omega)]

/-- Witness for C1: the mapper at the concrete code 404 yields NotFound. -/
theorem mapStatus_total_spec_witness :
    mapStatus 404 = SpanStatusCode.notFound :=
  (mapStatus_total_spec 404 (by decide)).2.2.2.1 rfl

/-- Claim C2: for every request whose inner handler settles (success or
failure), exactly one span is created and it is ended exactly once; span
creation strictly precedes the handler invocation and the span end strictly
follows the handler's settlement, on both settlement paths. -/
theorem span_lifecycle (fmt : Option (String → String)) (req : Request)
    (out : HandlerOutcome) :
    ((call fmt req out).1.countP Event.isSpanCreate = 1) ∧
    ((call fmt req out).1.countP Event.isSpanEnd = 1) ∧
    ∃ i1 i2 i3 i4,
      (call fmt req out).1.findIdx? Event.isSpanCreate = some i1 ∧
      (call fmt req out).1.findIdx? Event.isHandlerInvoke = some i2 ∧
      (call fmt req out).1.findIdx? Event.isHandlerSettle = some i3 ∧
      (call fmt req out).1.findIdx? Event.isSpanEnd = some i4 ∧
      i1 < i2 ∧ i3 < i4 := by
  cases out with
  | ok resp =>
    exact ⟨rfl, rfl, 0, 1, 2, 5, rfl, rfl, rfl, rfl, by decide, by decide⟩
  | err e =>
    exact ⟨rfl, rfl, 0, 1, 2, 4, rfl, rfl, rfl, rfl, by decide, by decide⟩

/-- Claim C3: on an inner-handler failure the middleware sets the span status
to Internal with the failure's rendered description, ends the span, and
re-raises the very same failure value to the caller. -/
theorem handler_failure_path (fmt : Option (String → String)) (req : Request)
    (e : HandlerError) :
    (call fmt req (HandlerOutcome.err e)).2 = HandlerOutcome.err e ∧
    (call fmt req (HandlerOutcome.err e)).1 =
      [Event.spanCreate (httpRouteOf fmt req) (collectAttributes fmt req),
       Event.handlerInvoke, Event.handlerSettle,
       Event.setStatus SpanStatusCode.internal e.debugRepr, Event.spanEnd] :=
  ⟨rfl, rfl⟩

/-- Claim C4: on an inner-handler success with status `s` the middleware
attaches the `http.status_code` attribute with value `s`, sets the span
status to the mapper's outcome for `s`, ends the span, and returns the
response unchanged. -/
theorem handler_success_path (fmt : Option (String → String)) (req : Request)
    (resp : Response) :
    (call fmt req (HandlerOutcome.ok resp)).2 = HandlerOutcome.ok resp ∧
    (call fmt req (HandlerOutcome.ok resp)).1 =
      [Event.spanCreate (httpRouteOf fmt req) (collectAttributes fmt req),
       Event.handlerInvoke, Event.handlerSettle,
       Event.setAttribute ("http.status_code") (AttrValue.int resp.status),
       Event.setStatus (mapStatus resp.status) (""),
       Event.spanEnd] :=
  ⟨rfl, rfl⟩

/-- Claim C5: the span name and the `http.route` attribute both equal the raw
matched pattern without a formatter, the literal `"default"` when no route
matched, and the formatter's output on that same input when a formatter is
configured. -/
theorem route_attribute_spec (fmt : Option (String → String)) (req : Request)
    (out : HandlerOutcome) :
    spanNameOf? (call fmt req out).1 = some (httpRouteOf fmt req) ∧
    (("http.route"), AttrValue.str (httpRouteOf fmt req)) ∈
      collectAttributes fmt req ∧
    httpRouteOf fmt req =
      (match fmt, req.matchPattern with
       | none, some p => p
       | none, none => "default"
       | some f, some p => f p
       | some f, none => f ("default")) := by
  refine ⟨?_, ?_, ?_⟩
  · cases out <;> rfl
  · simp [collectAttributes, baseAttrs]
  · cases fmt <;> cases h : req.matchPattern <;> simp [httpRouteOf, h]

/-- Claim C6: the `net.peer.ip` attribute is present in the collected set iff
the peer socket address is available and (as an optional value) differs from
the resolved real client IP. -/
theorem peer_ip_attr_iff (fmt : Option (String → String)) (req : Request) :
    (∃ v, (("net.peer.ip"), v) ∈ collectAttributes fmt req) ↔
      ∃ p, req.peerAddr = some p ∧ some p ≠ req.realipRemoteAddr := by
  constructor
  · rintro ⟨v, hv⟩
    simp only [collectAttributes, List.mem_append] at hv
    rcases hv with ((((((h | h) | h) | h) | h) | h) | h)
    · exact absurd h (by simp [baseAttrs])
    · exact absurd h (by unfold serverNameAttrs; split <;> simp)
    · exact absurd h (by unfold portAttrs; split <;> simp)
    · exact absurd h (by unfold targetAttrs; split <;> simp)
    · exact absurd h (by unfold userAgentAttrs; split <;> simp)
    · exact absurd h (by unfold clientIpAttrs; split <;> simp)
    · rcases hp : req.peerAddr with _ | p
      · simp [peerIpAttrs, hp] at h
      · simp only [peerIpAttrs, hp] at h
        split_ifs at h with hc
        · exact ⟨p, rfl, hc⟩
        · simp at h
  · rintro ⟨p, hp, hne⟩
    refine ⟨AttrValue.str p, ?_⟩
    simp only [collectAttributes, List.mem_append]
    refine Or.inr ?_
    simp [peerIpAttrs, hp, hne]

/-- Claim C7: the `http.server_name` attribute is present in the collected
set iff the server's configured host differs from the connection's resolved
host. -/
theorem server_name_attr_iff (fmt : Option (String → String))
    (req : Request) :
    (∃ v, (("http.server_name"), v) ∈ collectAttributes fmt req) ↔
      req.serverHost ≠ req.connHost := by
  constructor
  · rintro ⟨v, hv⟩
    simp only [collectAttributes, List.mem_append] at hv
    rcases hv with ((((((h | h) | h) | h) | h) | h) | h)
    · exact absurd h (by simp [baseAttrs])
    · simp only [serverNameAttrs] at h
      split_ifs at h with hc
      · exact hc
      · simp at h
    · exact absurd h (by unfold portAttrs; split <;> simp)
    · exact absurd h (by unfold targetAttrs; split <;> simp)
    · exact absurd h (by unfold userAgentAttrs; split <;> simp)
    · exact absurd h (by unfold clientIpAttrs; split <;> simp)
    · exact absurd h (by unfold peerIpAttrs; split <;> (try split) <;> simp)
  · intro hc
    refine ⟨AttrValue.str req.serverHost, ?_⟩
    simp only [collectAttributes, List.mem_append]
    refine Or.inl (Or.inl (Or.inl (Or.inl (Or.inl (Or.inr ?_)))))
    simp [serverNameAttrs, hc]

/-- Claim C8: the `net.host.port` attribute is present in the collected set
iff the second `:`-separated segment of the connection host parses as an
unsigned 64-bit number, and in that case its value is exactly that parsed
number; collection itself is a total function. -/
theorem host_port_attr_iff (fmt : Option (String → String)) (req : Request) :
    ((∃ v, (("net.host.port"), v) ∈ collectAttributes fmt req) ↔
      (hostPortOf req.connHost).isSome = true) ∧
    ∀ n, ((("net.host.port"), AttrValue.int n) ∈ collectAttributes fmt req ↔
      hostPortOf req.connHost = some n) := by
  have key : ∀ v, ((("net.host.port"), v) ∈ collectAttributes fmt req ↔
      (("net.host.port"), v) ∈ portAttrs req) := by
    intro v
    simp only [collectAttributes, List.mem_append]
    constructor
    · rintro ((((((h | h) | h) | h) | h) | h) | h)
      · exact absurd h (by simp [baseAttrs])
      · exact absurd h (by unfold serverNameAttrs; split <;> simp)
      · exact h
      · exact absurd h (by unfold targetAttrs; split <;> simp)
      · exact absurd h (by unfold userAgentAttrs; split <;> simp)
      · exact absurd h (by unfold clientIpAttrs; split <;> simp)
      · exact absurd h (by unfold peerIpAttrs; split <;> (try split) <;> simp)
    · intro h
      exact Or.inl (Or.inl (Or.inl (Or.inl (Or.inr h))))
  constructor
  · constructor
    · rintro ⟨v, hv⟩
      rw [key] at hv
      unfold portAttrs at hv
      rcases hp : hostPortOf req.connHost with _ | p <;> rw [hp] at hv
      · simp at hv
      · simp [hp]
    · intro hs
      rcases hp : hostPortOf req.connHost with _ | p
      · rw [hp] at hs; simp at hs
      · exact ⟨AttrValue.int p, (key _).mpr (by simp [portAttrs, hp])⟩
  · intro n
    rw [key (AttrValue.int n)]
    unfold portAttrs
    rcases hp : hostPortOf req.connHost with _ | p
    · simp
    · simp [eq_comm]

/-- On each of the five HTTP versions the flavor value is the debug rendering
with the family marker removed, and never keeps that marker. -/
theorem flavor_strips (v : Version) :
    ("HTTP/") ++ flavorOf v = v.debugRender ∧
    (flavorOf v).startsWith ("HTTP/") = false := by
  cases v <;> exact ⟨by decide, by decide⟩

/-- Claim C9: the `http.flavor` attribute carries the protocol version
rendered with the HTTP family marker removed (for example "1.1" for
HTTP/1.1), never the marker-carrying form. -/
theorem flavor_attr_spec (fmt : Option (String → String)) (req : Request) :
    (("http.flavor"), AttrValue.str (flavorOf req.version)) ∈
      collectAttributes fmt req ∧
    ("HTTP/") ++ flavorOf req.version = req.version.debugRender ∧
    (flavorOf req.version).startsWith ("HTTP/") = false := by
  refine ⟨?_, (flavor_strips req.version).1, (flavor_strips req.version).2⟩
  simp [collectAttributes, baseAttrs]

/-- Claim C10: on a successful settlement the unique status set on the span
carries the empty message (the mapped code paired with the empty string). -/
theorem success_status_message_empty (fmt : Option (String → String))
    (req : Request) (resp : Response) :
    statusEvents (call fmt req (HandlerOutcome.ok resp)).1 =
      [(mapStatus resp.status, "")] := rfl

end ActixOtel
